import Mathlib

/-!
Verification of the godino_cli terminal dinosaur game.

Go `float64` arithmetic on game coordinates is embedded as exact rational
arithmetic (`ℚ`); `int` is embedded as `ℤ`; `time.Duration` is embedded as
an integer number of nanoseconds.  Go's conversion of a float to an
integer type truncates toward zero, embedded below as `truncF`.
-/

namespace Dino

/-- Go conversion of a float to an integer: truncation toward zero. -/
def truncF (q : ℚ) : ℤ :=
  if 0 ≤ q then ⌊q⌋ else -⌊-q⌋

/-- Rectangle represents a rectangular collision boundary
(src/engine/config.go). -/
structure Rectangle where
  X : ℚ
  Y : ℚ
  Width : ℚ
  Height : ℚ
deriving DecidableEq

/-- Intersects checks if this rectangle intersects with another rectangle
(src/engine/config.go, strict inequalities on all four sides). -/
def Rectangle.Intersects (r other : Rectangle) : Bool :=
  decide (r.X < other.X + other.Width) &&
  decide (r.X + r.Width > other.X) &&
  decide (r.Y < other.Y + other.Height) &&
  decide (r.Y + r.Height > other.Y)

/-- CheckCollision of the CollisionDetector (src/engine/collision.go):
plain AABB intersection; the debug flag only prints and does not change the
result. -/
def CheckCollision (rect1 rect2 : Rectangle) : Bool :=
  rect1.Intersects rect2

/-- The rectangle shrunk by `tolerance` on every side, as built inside
CheckCollisionWithTolerance (src/engine/collision.go). -/
def adjustRect (r : Rectangle) (tolerance : ℚ) : Rectangle :=
  { X := r.X + tolerance
    Y := r.Y + tolerance
    Width := r.Width - 2 * tolerance
    Height := r.Height - 2 * tolerance }

/-- CheckCollisionWithTolerance (src/engine/collision.go): shrink both
rectangles by the tolerance, return false if either shrunk rectangle has
non-positive width or height, otherwise intersect the shrunk rectangles. -/
def CheckCollisionWithTolerance (rect1 rect2 : Rectangle) (tolerance : ℚ) : Bool :=
  if (adjustRect rect1 tolerance).Width ≤ 0 ∨ (adjustRect rect1 tolerance).Height ≤ 0 ∨
     (adjustRect rect2 tolerance).Width ≤ 0 ∨ (adjustRect rect2 tolerance).Height ≤ 0 then
    false
  else
    CheckCollision (adjustRect rect1 tolerance) (adjustRect rect2 tolerance)

/-- GameEngine.CheckCollision (game.go): dispatch on the configured
tolerance. -/
def engineCheckCollision (collisionTolerance : ℚ) (rect1 rect2 : Rectangle) : Bool :=
  if collisionTolerance > 0 then
    CheckCollisionWithTolerance rect1 rect2 collisionTolerance
  else
    CheckCollision rect1 rect2

/-- Config holds the game configuration parameters (src/engine/config.go);
only the numeric fields are embedded. -/
structure Config where
  ScreenWidth : ℤ
  ScreenHeight : ℤ
  TargetFPS : ℤ
  JumpVelocity : ℚ
  Gravity : ℚ
  ObstacleSpeed : ℚ
  SpawnRate : ℚ
  UseUnicode : Bool

/-- NewDefaultConfig (src/engine/config.go). -/
def NewDefaultConfig : Config :=
  { ScreenWidth := 80
    ScreenHeight := 20
    TargetFPS := 15
    JumpVelocity := 25
    Gravity := 60
    ObstacleSpeed := 18
    SpawnRate := 2
    UseUnicode := true }

/-- GameState (src/engine/config.go). -/
inductive GameState where
  | StateMenu
  | StatePlaying
  | StateGameOver
deriving DecidableEq

/-- Score manages the current game score and high score tracking (score.go).
Go `time.Time` stamps are embedded as rational instants, threaded through
the operations as an explicit `now` argument. -/
structure Score where
  Current : ℤ
  High : ℤ
  Distance : ℚ
  StartTime : ℚ
  LastUpdate : ℚ
  TimeMultiplier : ℤ
  ObstacleBonus : ℤ
  DistanceMultiplier : ℚ
  obstaclesPassed : ℤ
  gameStartTime : ℚ
  lastScoreTime : ℚ

/-- NewScore (score.go) at creation instant `now`. -/
def NewScore (now : ℚ) : Score :=
  { Current := 0
    High := 0
    Distance := 0
    StartTime := now
    LastUpdate := now
    TimeMultiplier := 10
    ObstacleBonus := 100
    DistanceMultiplier := 1
    obstaclesPassed := 0
    gameStartTime := now
    lastScoreTime := now }

/-- Score.Reset (score.go). -/
def Score.Reset (s : Score) (now : ℚ) : Score :=
  { s with
    Current := 0
    Distance := 0
    obstaclesPassed := 0
    gameStartTime := now
    lastScoreTime := now
    StartTime := now
    LastUpdate := now }

/-- Score.Update (score.go): accumulate distance, add whole-second time
points once at least one second has passed since the last score update, then
take the distance-floor score plus obstacle bonuses whenever it exceeds the
current score. -/
def Score.Update (s : Score) (deltaTime now : ℚ) : Score :=
  let distance := s.Distance + deltaTime * 10
  let timeSinceLastScore := now - s.lastScoreTime
  let current1 :=
    if 1 ≤ timeSinceLastScore then
      s.Current + truncF timeSinceLastScore * s.TimeMultiplier
    else s.Current
  let lastScoreTime1 := if 1 ≤ timeSinceLastScore then now else s.lastScoreTime
  let distancePoints := truncF (distance * s.DistanceMultiplier)
  let current2 :=
    if distancePoints > current1 then
      distancePoints + s.obstaclesPassed * s.ObstacleBonus
    else current1
  { s with
    Distance := distance
    Current := current2
    lastScoreTime := lastScoreTime1
    LastUpdate := now }

/-- Score.AddObstacleBonus (score.go). -/
def Score.AddObstacleBonus (s : Score) (now : ℚ) : Score :=
  { s with
    obstaclesPassed := s.obstaclesPassed + 1
    Current := s.Current + s.ObstacleBonus
    LastUpdate := now }

/-- Score.UpdateHighScore (score.go): raise the high score when beaten,
reporting whether it was. -/
def Score.UpdateHighScore (s : Score) : Score × Bool :=
  if s.Current > s.High then ({ s with High := s.Current }, true) else (s, false)

/-- One externally visible score operation of a run: an Update tick or an
obstacle bonus (score.go). -/
inductive ScoreStep where
  | update (deltaTime now : ℚ)
  | bonus (now : ℚ)

/-- Apply one score operation (score.go). -/
def applyScoreStep (s : Score) (step : ScoreStep) : Score :=
  match step with
  | .update deltaTime now => s.Update deltaTime now
  | .bonus now => s.AddObstacleBonus now

/-- Run a sequence of score operations (score.go). -/
def runScoreSteps (s : Score) (steps : List ScoreStep) : Score :=
  steps.foldl applyScoreStep s

/-- GameEngine state (game.go): the fields the state machine reads and
writes.  The state-change callback is embedded as the optional
(from, to) event returned alongside the new state — `some` exactly when the
Go code would invoke `onStateChange`. -/
structure GameEngine where
  state : GameState
  previousState : GameState
  running : Bool
  gameOver : Bool
  initialized : Bool
  startTime : ℚ
  gameScore : Score
  collisionTolerance : ℚ
  lastUpdate : ℚ
  deltaTime : ℚ

/-- NewGameEngine (game.go) at creation instant `now`; the persisted high
score loaded by LoadHighScoreInto is passed in as `high`. -/
def NewGameEngine (now : ℚ) (high : ℤ) : GameEngine :=
  { state := .StateMenu
    previousState := .StateMenu
    running := false
    gameOver := false
    initialized := false
    startTime := 0
    gameScore := { NewScore now with High := high }
    collisionTolerance := 1/2
    lastUpdate := now
    deltaTime := 0 }

/-- GameEngine.handleStateTransition (game.go).  Entering Playing
initializes on first entry, and resets score and start time unless coming
from Playing; entering GameOver finalizes the score (the high-score file
write is outside the model). -/
def handleStateTransition (ge : GameEngine) (fromState toState : GameState) (now : ℚ) :
    GameEngine :=
  match toState with
  | .StateMenu => { ge with running := false, gameOver := false }
  | .StatePlaying =>
      let ge1 := if ge.initialized then ge else { ge with initialized := true, lastUpdate := now }
      let ge2 := { ge1 with running := true, gameOver := false }
      if fromState ≠ GameState.StatePlaying then
        { ge2 with startTime := now, gameScore := ge2.gameScore.Reset now }
      else ge2
  | .StateGameOver =>
      { ge with running := false, gameOver := true,
                gameScore := ge.gameScore.UpdateHighScore.1 }

/-- GameEngine.SetState (game.go): no-op when the state is unchanged,
otherwise record the previous state, switch, run the transition handler and
fire the state-change event. -/
def GameEngine.SetState (ge : GameEngine) (st : GameState) (now : ℚ) :
    GameEngine × Option (GameState × GameState) :=
  if ge.state = st then (ge, none)
  else
    let ge1 : GameEngine := { ge with previousState := ge.state, state := st }
    (handleStateTransition ge1 ge.state st now, some (ge.state, st))

/-- GameEngine.CanTransitionTo (game.go). -/
def GameEngine.CanTransitionTo (ge : GameEngine) (newState : GameState) : Bool :=
  match ge.state with
  | .StateMenu => decide (newState = GameState.StatePlaying)
  | .StatePlaying =>
      decide (newState = GameState.StateGameOver) || decide (newState = GameState.StateMenu)
  | .StateGameOver =>
      decide (newState = GameState.StateMenu) || decide (newState = GameState.StatePlaying)

/-- GameEngine.TransitionTo (game.go): SetState when the transition is
legal, reporting success; otherwise leave everything untouched. -/
def GameEngine.TransitionTo (ge : GameEngine) (newState : GameState) (now : ℚ) :
    GameEngine × Bool × Option (GameState × GameState) :=
  if ge.CanTransitionTo newState then
    let r := ge.SetState newState now
    (r.1, true, r.2)
  else (ge, false, none)

/-- Dinosaur represents the player-controlled character
(src/entities, dinosaur.go). -/
structure Dinosaur where
  X : ℚ
  Y : ℚ
  VelocityY : ℚ
  IsJumping : Bool
  IsRunning : Bool
  AnimFrame : ℤ
  GroundLevel : ℚ
  lastAnimUpdate : ℚ
  animSpeed : ℚ
  Width : ℚ
  Height : ℚ

/-- NewDinosaur (dinosaur.go) at creation instant `now`. -/
def NewDinosaur (groundLevel now : ℚ) : Dinosaur :=
  { X := 15
    Y := groundLevel
    VelocityY := 0
    IsJumping := false
    IsRunning := true
    AnimFrame := 0
    GroundLevel := groundLevel
    lastAnimUpdate := now
    animSpeed := 150/1000
    Width := 8
    Height := 6 }

/-- Dinosaur.IsOnGround (dinosaur.go). -/
def Dinosaur.IsOnGround (d : Dinosaur) : Bool :=
  decide (d.Y ≥ d.GroundLevel) && !d.IsJumping

/-- Dinosaur.Jump (dinosaur.go): start a jump only when on the ground;
velocity is negative because Y increases downward. -/
def Dinosaur.Jump (d : Dinosaur) (config : Config) : Dinosaur :=
  if d.IsOnGround then
    { d with IsJumping := true, VelocityY := -config.JumpVelocity, IsRunning := false }
  else d

/-- Dinosaur.Update (dinosaur.go): while jumping, integrate the position
with the current velocity, then apply gravity to the velocity, then land if
at or below ground; while grounded, advance the running animation. -/
def Dinosaur.Update (d : Dinosaur) (deltaTime : ℚ) (config : Config) (now : ℚ) : Dinosaur :=
  if d.IsJumping then
    let y1 := d.Y + d.VelocityY * deltaTime
    let v1 := d.VelocityY + config.Gravity * deltaTime
    if y1 ≥ d.GroundLevel then
      { d with Y := d.GroundLevel, VelocityY := 0, IsJumping := false, IsRunning := true }
    else
      { d with Y := y1, VelocityY := v1 }
  else
    if d.IsRunning then
      if now - d.lastAnimUpdate ≥ d.animSpeed then
        { d with AnimFrame := (d.AnimFrame + 1) % 4, lastAnimUpdate := now }
      else d
    else d

/-- ObstacleSpawner state (src/spawner/spawner.go): the fields read or
written by spawn scheduling.  `time.Duration` intervals are integer
nanosecond counts. -/
structure ObstacleSpawner where
  gameTime : ℚ
  baseSpawnRate : ℚ
  maxSpawnRate : ℚ
  difficultyRamp : ℚ
  minSpawnInterval : ℤ
  maxSpawnInterval : ℤ
  nextSpawnDelay : ℤ

/-- getCurrentSpawnRate (src/spawner/spawner.go): ramp the base rate with
game time, capped at the maximum rate. -/
def getCurrentSpawnRate (s : ObstacleSpawner) : ℚ :=
  let difficultyMultiplier := 1 + s.gameTime * s.difficultyRamp / 10
  let currentRate := s.baseSpawnRate * difficultyMultiplier
  if currentRate > s.maxSpawnRate then s.maxSpawnRate else currentRate

/-- scheduleNextSpawn (src/spawner/spawner.go): interval = 1/rate seconds
scaled by the random jitter factor 0.7 + 0.6·u for the rng draw u, converted
to whole milliseconds (Go Duration conversion truncates) and then clamped to
[minSpawnInterval, maxSpawnInterval]. -/
def scheduleNextSpawn (s : ObstacleSpawner) (u : ℚ) : ObstacleSpawner :=
  let currentSpawnRate := getCurrentSpawnRate s
  let baseInterval := 1 / currentSpawnRate
  let randomFactor := 7/10 + u * (6/10)
  let interval0 := truncF (baseInterval * randomFactor * 1000) * 1000000
  let interval1 := if interval0 < s.minSpawnInterval then s.minSpawnInterval else interval0
  let interval2 := if interval1 > s.maxSpawnInterval then s.maxSpawnInterval else interval1
  { s with nextSpawnDelay := interval2 }

theorem intersects_iff (r other : Rectangle) :
    r.Intersects other = true ↔
      (r.X < other.X + other.Width ∧ r.X + r.Width > other.X ∧
       r.Y < other.Y + other.Height ∧ r.Y + r.Height > other.Y) := by
  simp [Rectangle.Intersects, Bool.and_eq_true, decide_eq_true_eq, and_assoc]

theorem checkCollision_eq (rect1 rect2 : Rectangle) :
    CheckCollision rect1 rect2 = rect1.Intersects rect2 := rfl

theorem checkTol_eq_true_iff (rect1 rect2 : Rectangle) (t : ℚ) :
    CheckCollisionWithTolerance rect1 rect2 t = true ↔
      ¬((adjustRect rect1 t).Width ≤ 0 ∨ (adjustRect rect1 t).Height ≤ 0 ∨
        (adjustRect rect2 t).Width ≤ 0 ∨ (adjustRect rect2 t).Height ≤ 0) ∧
      CheckCollision (adjustRect rect1 t) (adjustRect rect2 t) = true := by
  unfold CheckCollisionWithTolerance
  split
  · simp [*]
  · simp [*]

theorem checkTol_mono (rect1 rect2 : Rectangle) (t1 t2 : ℚ) (hle : t2 ≤ t1)
    (h : CheckCollisionWithTolerance rect1 rect2 t1 = true) :
    CheckCollisionWithTolerance rect1 rect2 t2 = true := by
  rw [checkTol_eq_true_iff] at h ⊢
  obtain ⟨hdeg, hint⟩ := h
  push_neg at hdeg
  obtain ⟨hd1, hd2, hd3, hd4⟩ := hdeg
  rw [checkCollision_eq, intersects_iff] at hint
  simp only [adjustRect] at hd1 hd2 hd3 hd4 hint
  obtain ⟨hi1, hi2, hi3, hi4⟩ := hint
  constructor
  · push_neg
    simp only [adjustRect]
    refine ⟨by linarith, by linarith, by linarith, by linarith⟩
  · rw [checkCollision_eq, intersects_iff]
    simp only [adjustRect]
    refine ⟨by linarith, by linarith, by linarith, by linarith⟩

/-- C1: `Rectangle.Intersects` is the strict-inequality AABB test on all four
sides; the edge-touching rectangles A = (0,0,10,10) and B = (10,0,10,10) do
not intersect, while moving B's x to 9.999 makes them intersect. -/
theorem C1_intersects_strict :
    (∀ a b : Rectangle,
      a.Intersects b = true ↔
        (a.X < b.X + b.Width ∧ a.X + a.Width > b.X ∧
         a.Y < b.Y + b.Height ∧ a.Y + a.Height > b.Y)) ∧
    Rectangle.Intersects ⟨0, 0, 10, 10⟩ ⟨10, 0, 10, 10⟩ = false ∧
    Rectangle.Intersects ⟨0, 0, 10, 10⟩ ⟨9999/1000, 0, 10, 10⟩ = true := by
  refine ⟨intersects_iff, ?_, ?_⟩
  · rw [Bool.eq_false_iff, Ne, intersects_iff]
    norm_num
  · rw [intersects_iff]
    norm_num

/-- C2: whenever shrinking either rectangle by the tolerance on every side
leaves a non-positive width or height, CheckCollisionWithTolerance returns
false unconditionally. -/
theorem C2_degenerate_false (a b : Rectangle) (t : ℚ)
    (h : a.Width - 2 * t ≤ 0 ∨ a.Height - 2 * t ≤ 0 ∨
         b.Width - 2 * t ≤ 0 ∨ b.Height - 2 * t ≤ 0) :
    CheckCollisionWithTolerance a b t = false := by
  unfold CheckCollisionWithTolerance
  rw [if_pos]
  simpa only [adjustRect] using h

/-- Witness for C2 at a = b = (0,0,10,10) and t = 5: the shrunk width is
10 - 2*5 = 0, so the collision test reports false. -/
theorem C2_degenerate_false_witness :
    CheckCollisionWithTolerance ⟨0, 0, 10, 10⟩ ⟨0, 0, 10, 10⟩ 5 = false := by
  refine C2_degenerate_false _ _ 5 (Or.inl ?_)
  norm_num

/-- C3: for a fixed pair of rectangles, CheckCollisionWithTolerance is
non-increasing in the tolerance: true at t1 stays true at every t2 < t1,
and false at t1 stays false at every t2 > t1. -/
theorem C3_tolerance_antitone (a b : Rectangle) (t1 t2 : ℚ) :
    (CheckCollisionWithTolerance a b t1 = true → t2 < t1 →
       CheckCollisionWithTolerance a b t2 = true) ∧
    (CheckCollisionWithTolerance a b t1 = false → t1 < t2 →
       CheckCollisionWithTolerance a b t2 = false) := by
  constructor
  · intro h hlt
    exact checkTol_mono a b t1 t2 (le_of_lt hlt) h
  · intro h hlt
    by_contra hne
    rw [Bool.not_eq_false] at hne
    have := checkTol_mono a b t2 t1 (le_of_lt hlt) hne
    rw [h] at this
    exact Bool.false_ne_true this

/-- Witness for C3 at a = (0,0,10,10), b = (5,0,10,10), t1 = 1, t2 = 0: the
rectangles overlap by 5 units, collide at tolerance 1, hence also at
tolerance 0. -/
theorem C3_tolerance_antitone_witness :
    CheckCollisionWithTolerance ⟨0, 0, 10, 10⟩ ⟨5, 0, 10, 10⟩ 0 = true := by
  refine (C3_tolerance_antitone ⟨0, 0, 10, 10⟩ ⟨5, 0, 10, 10⟩ 1 0).1 ?_ (by norm_num)
  rw [checkTol_eq_true_iff]
  constructor
  · simp only [adjustRect]
    push_neg
    norm_num
  · rw [checkCollision_eq, intersects_iff]
    simp only [adjustRect]
    norm_num

/-- C10: GameEngine.CheckCollision dispatches on the configured tolerance:
with a positive tolerance it is CheckCollisionWithTolerance at that
tolerance, and with tolerance ≤ 0 it is the raw Intersects test. -/
theorem C10_engine_dispatch (tol : ℚ) (a b : Rectangle) :
    (tol > 0 → engineCheckCollision tol a b = CheckCollisionWithTolerance a b tol) ∧
    (tol ≤ 0 → engineCheckCollision tol a b = a.Intersects b) := by
  constructor
  · intro h
    unfold engineCheckCollision
    rw [if_pos h]
  · intro h
    unfold engineCheckCollision
    rw [if_neg (by exact not_lt.mpr h)]
    rfl

/-- Witness for C10 at tolerance 1 (positive branch) and tolerance 0 (raw
branch) over the rectangles (0,0,10,10) and (5,0,10,10). -/
theorem C10_engine_dispatch_witness :
    engineCheckCollision 1 ⟨0, 0, 10, 10⟩ ⟨5, 0, 10, 10⟩ =
      CheckCollisionWithTolerance ⟨0, 0, 10, 10⟩ ⟨5, 0, 10, 10⟩ 1 ∧
    engineCheckCollision 0 ⟨0, 0, 10, 10⟩ ⟨5, 0, 10, 10⟩ =
      Rectangle.Intersects ⟨0, 0, 10, 10⟩ ⟨5, 0, 10, 10⟩ := by
  constructor
  · exact (C10_engine_dispatch 1 ⟨0, 0, 10, 10⟩ ⟨5, 0, 10, 10⟩).1 (by norm_num)
  · exact (C10_engine_dispatch 0 ⟨0, 0, 10, 10⟩ ⟨5, 0, 10, 10⟩).2 (by norm_num)

/-- C4: a requested engine state transition succeeds exactly when the
(from, to) pair is one of Menu→Playing, Playing→GameOver, Playing→Menu,
GameOver→Menu, GameOver→Playing; any other request leaves the engine
untouched and fires no state-change callback. -/
theorem C4_transition_table (ge : GameEngine) (toState : GameState) (now : ℚ) :
    ((ge.TransitionTo toState now).2.1 = true ↔
      ((ge.state = GameState.StateMenu ∧ toState = GameState.StatePlaying) ∨
       (ge.state = GameState.StatePlaying ∧ toState = GameState.StateGameOver) ∨
       (ge.state = GameState.StatePlaying ∧ toState = GameState.StateMenu) ∨
       (ge.state = GameState.StateGameOver ∧ toState = GameState.StateMenu) ∨
       (ge.state = GameState.StateGameOver ∧ toState = GameState.StatePlaying))) ∧
    ((ge.TransitionTo toState now).2.1 = false →
      (ge.TransitionTo toState now).1 = ge ∧ (ge.TransitionTo toState now).2.2 = none) := by
  obtain ⟨st, prev, run1, go1, init1, stt, sc, ct, lu, dt⟩ := ge
  cases st <;> cases toState <;>
    simp [GameEngine.TransitionTo, GameEngine.CanTransitionTo, GameEngine.SetState]

/-- Witness for C4 at the illegal request Menu→GameOver on a fresh engine:
the engine is returned unchanged and no callback event is produced. -/
theorem C4_transition_table_witness :
    ((NewGameEngine 0 0).TransitionTo GameState.StateGameOver 0).1 = NewGameEngine 0 0 ∧
    ((NewGameEngine 0 0).TransitionTo GameState.StateGameOver 0).2.2 = none :=
  (C4_transition_table (NewGameEngine 0 0) GameState.StateGameOver 0).2 rfl

/-- C5: calling SetState with the state the engine is already in is a
complete no-op: the engine (score, startTime, previousState included) is
unchanged and no state-change callback fires. -/
theorem C5_setstate_same_noop (ge : GameEngine) (now : ℚ) :
    ge.SetState ge.state now = (ge, none) ∧
    (ge.SetState ge.state now).1.gameScore = ge.gameScore ∧
    (ge.SetState ge.state now).1.startTime = ge.startTime ∧
    (ge.SetState ge.state now).1.previousState = ge.previousState := by
  have h : ge.SetState ge.state now = (ge, none) := by
    unfold GameEngine.SetState
    rw [if_pos rfl]
  exact ⟨h, by rw [h], by rw [h], by rw [h]⟩

/-- C8: an airborne player that does not land this tick integrates position
with the velocity from before gravity is applied, then adds gravity·dt to
the velocity (semi-implicit Euler, position first). -/
theorem C8_position_then_gravity (d : Dinosaur) (deltaTime now : ℚ) (config : Config)
    (hj : d.IsJumping = true)
    (hair : d.Y + d.VelocityY * deltaTime < d.GroundLevel) :
    (d.Update deltaTime config now).Y = d.Y + d.VelocityY * deltaTime ∧
    (d.Update deltaTime config now).VelocityY = d.VelocityY + config.Gravity * deltaTime := by
  simp only [Dinosaur.Update, hj, if_true]
  rw [if_neg (not_le.mpr hair)]
  exact ⟨rfl, rfl⟩

/-- Witness for C8: a jumping dinosaur at y = 10 with upward velocity -25
under the default gravity 60, tick 1/10 s: new y = 7.5 (above the ground at
16) and new velocity = -19. -/
theorem C8_position_then_gravity_witness :
    (Dinosaur.Update { NewDinosaur 16 0 with IsJumping := true, Y := 10, VelocityY := -25 }
        (1/10) NewDefaultConfig 0).Y = 10 + (-25) * (1/10) ∧
    (Dinosaur.Update { NewDinosaur 16 0 with IsJumping := true, Y := 10, VelocityY := -25 }
        (1/10) NewDefaultConfig 0).VelocityY = -25 + NewDefaultConfig.Gravity * (1/10) :=
  C8_position_then_gravity _ (1/10) 0 NewDefaultConfig rfl (by norm_num [NewDinosaur])

/-- C9: a jump command while already airborne changes nothing: the dinosaur
is returned exactly as it was. -/
theorem C9_no_double_jump (d : Dinosaur) (config : Config)
    (h : d.IsJumping = true) :
    d.Jump config = d := by
  unfold Dinosaur.Jump Dinosaur.IsOnGround
  rw [h]
  simp

/-- Witness for C9: an airborne dinosaur is unchanged by Jump, so velocity,
position and flags are all preserved. -/
theorem C9_no_double_jump_witness :
    ({ NewDinosaur 16 0 with IsJumping := true } : Dinosaur).Jump NewDefaultConfig
      = { NewDinosaur 16 0 with IsJumping := true } :=
  C9_no_double_jump _ NewDefaultConfig rfl

/-- C6: for a spawner with positive base spawn rate, non-negative game time
and difficulty ramp, positive maximum rate, and a consistent
[min, max] interval window, the scheduled spawn delay lies within
[minSpawnInterval, maxSpawnInterval] for every value of the random draw. -/
theorem C6_spawn_delay_clamped (s : ObstacleSpawner) (u : ℚ)
    (hbase : 0 < s.baseSpawnRate) (htime : 0 ≤ s.gameTime)
    (hramp : 0 ≤ s.difficultyRamp) (hmax : 0 < s.maxSpawnRate)
    (hwin : s.minSpawnInterval ≤ s.maxSpawnInterval) :
    s.minSpawnInterval ≤ (scheduleNextSpawn s u).nextSpawnDelay ∧
    (scheduleNextSpawn s u).nextSpawnDelay ≤ s.maxSpawnInterval := by
  simp only [scheduleNextSpawn]
  split_ifs <;> constructor <;> omega

/-- Witness for C6 at the constructor values of NewObstacleSpawner under the
default config (base rate 2, max rate 6, ramp 0.1, window 0.8 s – 3 s in
nanoseconds) and random draw 0. -/
theorem C6_spawn_delay_clamped_witness :
    (800000000 : ℤ) ≤
      (scheduleNextSpawn ⟨0, 2, 6, 1/10, 800000000, 3000000000, 0⟩ 0).nextSpawnDelay ∧
    (scheduleNextSpawn ⟨0, 2, 6, 1/10, 800000000, 3000000000, 0⟩ 0).nextSpawnDelay ≤
      (3000000000 : ℤ) :=
  C6_spawn_delay_clamped ⟨0, 2, 6, 1/10, 800000000, 3000000000, 0⟩ 0
    (by norm_num) (by norm_num) (by norm_num) (by norm_num) (by norm_num)

theorem truncF_one_le {q : ℚ} (h : 1 ≤ q) : 1 ≤ truncF q := by
  unfold truncF
  rw [if_pos (by linarith)]
  exact Int.le_floor.mpr (by exact_mod_cast h)

theorem le_ite_bonus {a c1 dp ob : ℤ} (h : a ≤ c1) (hob : 0 ≤ ob) :
    a ≤ if dp > c1 then dp + ob else c1 := by
  split_ifs with h2
  · linarith
  · exact h

theorem update_current_mono (s : Score) (deltaTime now : ℚ)
    (hT : 0 ≤ s.TimeMultiplier) (hOB : 0 ≤ s.obstaclesPassed * s.ObstacleBonus) :
    s.Current ≤ (s.Update deltaTime now).Current := by
  have hc1 : s.Current ≤ (if 1 ≤ now - s.lastScoreTime then
      s.Current + truncF (now - s.lastScoreTime) * s.TimeMultiplier else s.Current) := by
    split_ifs with h
    · have ht := truncF_one_le h
      have hmul : 0 ≤ truncF (now - s.lastScoreTime) * s.TimeMultiplier :=
        mul_nonneg (by linarith) hT
      linarith
    · exact le_refl _
  simp only [Score.Update]
  exact le_ite_bonus hc1 hOB

theorem bonus_current_mono (s : Score) (now : ℚ) (hB : 0 ≤ s.ObstacleBonus) :
    s.Current ≤ (s.AddObstacleBonus now).Current := by
  simp only [Score.AddObstacleBonus]
  linarith

theorem applyScoreStep_frame (s : Score) (step : ScoreStep) :
    (applyScoreStep s step).TimeMultiplier = s.TimeMultiplier ∧
    (applyScoreStep s step).ObstacleBonus = s.ObstacleBonus ∧
    s.obstaclesPassed ≤ (applyScoreStep s step).obstaclesPassed := by
  cases step with
  | update deltaTime now => exact ⟨rfl, rfl, le_refl _⟩
  | bonus now =>
      refine ⟨rfl, rfl, ?_⟩
      show s.obstaclesPassed ≤ s.obstaclesPassed + 1
      omega

theorem applyScoreStep_current_mono (s : Score) (step : ScoreStep)
    (hT : 0 ≤ s.TimeMultiplier) (hB : 0 ≤ s.ObstacleBonus)
    (hP : 0 ≤ s.obstaclesPassed) :
    s.Current ≤ (applyScoreStep s step).Current := by
  cases step with
  | update deltaTime now => exact update_current_mono s deltaTime now hT (mul_nonneg hP hB)
  | bonus now => exact bonus_current_mono s now hB

theorem runScoreSteps_frame (s : Score) (steps : List ScoreStep) :
    (runScoreSteps s steps).TimeMultiplier = s.TimeMultiplier ∧
    (runScoreSteps s steps).ObstacleBonus = s.ObstacleBonus ∧
    s.obstaclesPassed ≤ (runScoreSteps s steps).obstaclesPassed := by
  induction steps generalizing s with
  | nil => exact ⟨rfl, rfl, le_refl _⟩
  | cons step rest ih =>
      have h1 := applyScoreStep_frame s step
      have h2 := ih (applyScoreStep s step)
      have heq : runScoreSteps s (step :: rest) = runScoreSteps (applyScoreStep s step) rest := rfl
      rw [heq]
      exact ⟨h2.1.trans h1.1, h2.2.1.trans h1.2.1, h1.2.2.trans h2.2.2⟩

/-- C7: within a run with non-negative scoring configuration, the current
score never decreases: after any sequence of Update and AddObstacleBonus
calls, one further call leaves the score at least as large as before it. -/
theorem C7_score_never_decreases (s : Score) (steps : List ScoreStep) (step : ScoreStep)
    (hT : 0 ≤ s.TimeMultiplier) (hB : 0 ≤ s.ObstacleBonus)
    (hP : 0 ≤ s.obstaclesPassed) :
    (runScoreSteps s steps).Current ≤ (runScoreSteps s (steps ++ [step])).Current := by
  have hinv := runScoreSteps_frame s steps
  have hT' : 0 ≤ (runScoreSteps s steps).TimeMultiplier := by rw [hinv.1]; exact hT
  have hB' : 0 ≤ (runScoreSteps s steps).ObstacleBonus := by rw [hinv.2.1]; exact hB
  have hP' : 0 ≤ (runScoreSteps s steps).obstaclesPassed := hP.trans hinv.2.2
  have heq : runScoreSteps s (steps ++ [step]) = applyScoreStep (runScoreSteps s steps) step := by
    simp [runScoreSteps, List.foldl_append, applyScoreStep]
  rw [heq]
  exact applyScoreStep_current_mono _ step hT' hB' hP'

/-- Witness for C7 on a fresh score: an Update tick at t = 2 after an
obstacle bonus does not lower the score. -/
theorem C7_score_never_decreases_witness :
    (runScoreSteps (NewScore 0) [ScoreStep.bonus 1]).Current ≤
      (runScoreSteps (NewScore 0) ([ScoreStep.bonus 1] ++ [ScoreStep.update (1/10) 2])).Current :=
  C7_score_never_decreases (NewScore 0) [ScoreStep.bonus 1] (ScoreStep.update (1/10) 2)
    (by norm_num [NewScore]) (by norm_num [NewScore]) (by norm_num [NewScore])

end Dino
